import Mathlib

/-!
Shallow embedding of `src/app/static/js/script.js`: a browser UI with a
file-selector handler that replaces a rendering scene with a freshly decoded
3D asset, an AI-shutoff checkbox whose change handler rewrites the status
indicator, a `setAIRunning` helper, and a toolbar click dispatcher keyed on
each button's `title` attribute.

The DOM-backed mutable state is modelled as an explicit record, and each
event handler as a pure function from the prior state to the next state
paired with the list of user-visible / console side effects it emits.
-/

namespace MicroscopyUI

/-- A console or dialog side effect emitted by a handler:
`alert` is a blocking user-visible notice, `warn` is `console.warn`,
`log` is `console.log`. -/
inductive Effect where
  | alert (msg : String)
  | warn (msg : String)
  | log (msg : String)
  deriving DecidableEq, Repr

/-- The DOM-backed UI state touched by the interlock and toolbar handlers:
`checked` is `aiToggle.checked` (the spec's `disabled` flag),
`modeText` is `modeIndicator.textContent`,
`dotClass` is `statusDot.className` (carries the status state tag),
`statusText` is `statusText.textContent`. -/
structure UIState where
  checked : Bool
  modeText : String
  dotClass : String
  statusText : String
  deriving DecidableEq, Repr

/-- `setStatus(state, text)` from the source: writes the status dot's class
list and the status text. -/
def setStatus (state text : String) (s : UIState) : UIState :=
  { s with dotClass := "status-dot " ++ state, statusText := "AI: " ++ text }

/-- `setMode(mode)` from the source: writes the mode indicator and logs the
switch to the console. -/
def setMode (mode : String) (s : UIState) : UIState × List Effect :=
  ({ s with modeText := "MODE: " ++ mode }, [Effect.log ("Switched to " ++ mode)])

/-- The `.tool-btn` click handler from the source: dispatch on the clicked
button's `title` attribute. -/
def toolButtonClick (action : String) (s : UIState) : UIState × List Effect :=
  match action with
  | "Settings" =>
      let r := setMode "SETTINGS" s
      (r.1, r.2 ++ [Effect.alert "Settings panel coming soon"])
  | "AI Tools" =>
      if s.checked then
        (s, [Effect.alert "AI is disabled by shutoff switch."])
      else
        let r := setMode "AI TOOL SELECTION" s
        (setStatus "idle" "READY" r.1, r.2)
  | "Graphs / Analysis" =>
      let r := setMode "ANALYSIS" s
      (setStatus "idle" "IDLE" r.1, r.2)
  | "Captured Images" => setMode "IMAGE REVIEW" s
  | "Human TEM Control" =>
      let r := setMode "HUMAN CONTROL" { s with checked := true }
      (setStatus "error" "DISABLED" r.1, r.2)
  | "Automated TEM" =>
      if s.checked then
        (s, [Effect.alert "Disable AI shutoff to enable automation."])
      else
        let r := setMode "AUTOMATED TEM" s
        (setStatus "running" "RUNNING" r.1, r.2)
  | _ => (s, [Effect.warn ("Unknown toolbar action: " ++ action)])

/-- The `aiToggle` "change" handler from the source, reading the checkbox's
already-flipped `checked` state. -/
def aiToggleChange (s : UIState) : UIState × List Effect :=
  if s.checked then
    ({ s with dotClass := "status-dot error", statusText := "AI: DISABLED" },
     [Effect.warn "AI shutoff engaged — hardware commands blocked."])
  else
    ({ s with dotClass := "status-dot idle", statusText := "AI: IDLE" }, [])

/-- A user toggle of the interlock checkbox: the checkbox takes the new value
`b`, then its "change" handler fires. -/
def toggleTo (b : Bool) (s : UIState) : UIState × List Effect :=
  aiToggleChange { s with checked := b }

/-- `setAIRunning()` from the source: marks the status as running only while
the shutoff checkbox is unchecked. -/
def setAIRunning (s : UIState) : UIState :=
  if !s.checked then
    { s with dotClass := "status-dot running", statusText := "AI: RUNNING" }
  else
    s

/-- A node of the rendering scene graph as the file-selector handler sees it:
the ambient light added at startup, or a loaded asset subtree (identified by
an abstract id so distinct loads are distinguishable). -/
inductive SceneNode where
  | ambientLight
  | asset (id : Nat)
  deriving DecidableEq, Repr

/-- Whether a scene node is a loaded asset subtree (not the ambient light). -/
def SceneNode.isAsset : SceneNode → Bool
  | .ambientLight => false
  | .asset _ => true

/-- A user-selected file, identified by its name. -/
structure FileHandle where
  name : String
  deriving DecidableEq, Repr

/-- JS `String.prototype.endsWith(pat)` (case-sensitive suffix test),
modelled on the underlying character lists. -/
def jsEndsWith (s pat : String) : Bool :=
  s.data.drop (s.data.length - pat.data.length) == pat.data

/-- Outcome of one run of the file-selector change handler: the scene after
the handler (and, when applicable, the load continuation) finishes, whether
`GLTFLoader.load` was invoked, the `console.error` reports, and whether the
render loop was started. -/
structure LoadOutcome where
  scene : List SceneNode
  loaderInvoked : Bool
  consoleErrors : List String
  animateStarted : Bool
  deriving DecidableEq, Repr

/-- The `file-selector` "change" handler from the source. `decode` abstracts
the external `GLTFLoader`, yielding the decoded subtree's id or an error.
The handler dereferences `e.target.files[0]` before any extension check, so
an empty file list is modelled as `none` (the unguarded `file.name` access on
`undefined`); on success the continuation runs `scene.clear()`, re-adds the
light, adds the decoded subtree and starts `animate()`. -/
def fileSelectorChange (files : List FileHandle) (scene : List SceneNode)
    (decode : String → Except String Nat) : Option LoadOutcome :=
  match files with
  | [] => none
  | file :: _ =>
      if jsEndsWith file.name ".glb" || jsEndsWith file.name ".gltf" then
        match decode file.name with
        | Except.ok assetId =>
            some ⟨[SceneNode.ambientLight, SceneNode.asset assetId], true, [], true⟩
        | Except.error e =>
            some ⟨scene, true, ["Load error: " ++ e], false⟩
      else
        some ⟨scene, false, [], false⟩

/-- C1: for every prior state with `disabled == true` (the shutoff checkbox
checked), clicking "AI Tools" or "Automated TEM" leaves the whole UI state —
in particular mode, status state tag and status text — unchanged and emits
exactly one user-visible rejection alert. -/
theorem interlock_rejects_ai_actions (s : UIState) (a : String)
    (hd : s.checked = true) (ha : a = "AI Tools" ∨ a = "Automated TEM") :
    (toolButtonClick a s).1 = s ∧
      ∃ msg, (toolButtonClick a s).2 = [Effect.alert msg] := by
  rcases ha with h | h <;> subst h
  · exact ⟨by simp [toolButtonClick, hd], "AI is disabled by shutoff switch.",
      by simp [toolButtonClick, hd]⟩
  · exact ⟨by simp [toolButtonClick, hd], "Disable AI shutoff to enable automation.",
      by simp [toolButtonClick, hd]⟩

/-- Witness for C1 at a concrete disabled state. -/
theorem interlock_rejects_ai_actions_witness :
    (toolButtonClick "AI Tools" ⟨true, "MODE: SETTINGS", "status-dot idle", "AI: IDLE"⟩).1 =
        ⟨true, "MODE: SETTINGS", "status-dot idle", "AI: IDLE"⟩ ∧
      ∃ msg, (toolButtonClick "AI Tools"
        ⟨true, "MODE: SETTINGS", "status-dot idle", "AI: IDLE"⟩).2 = [Effect.alert msg] :=
  interlock_rejects_ai_actions ⟨true, "MODE: SETTINGS", "status-dot idle", "AI: IDLE"⟩
    "AI Tools" rfl (Or.inl rfl)

/-- C2: for every prior state, clicking "Human TEM Control" forces the
shutoff checkbox to checked (`disabled := true`), sets the mode indicator to
"HUMAN CONTROL" and the status indicator to the error state tag with text
"DISABLED". -/
theorem human_control_forces_disable (s : UIState) :
    toolButtonClick "Human TEM Control" s =
      (⟨true, "MODE: HUMAN CONTROL", "status-dot error", "AI: DISABLED"⟩,
       [Effect.log "Switched to HUMAN CONTROL"]) := by
  simp [toolButtonClick, setMode, setStatus]

/-- C3: for every prior state, toggling the interlock checkbox to `true`
yields the error state tag and status text "AI: DISABLED", and toggling it to
`false` yields the idle state tag and status text "AI: IDLE"; in both cases
the mode indicator is untouched. -/
theorem toggle_sets_status_keeps_mode (s : UIState) :
    ((toggleTo true s).1.dotClass = "status-dot error" ∧
      (toggleTo true s).1.statusText = "AI: DISABLED" ∧
      (toggleTo true s).1.modeText = s.modeText) ∧
    ((toggleTo false s).1.dotClass = "status-dot idle" ∧
      (toggleTo false s).1.statusText = "AI: IDLE" ∧
      (toggleTo false s).1.modeText = s.modeText) := by
  simp [toggleTo, aiToggleChange]

/-- C4: `setAIRunning` sets the status indicator to the running state tag
with text "RUNNING" (displayed as "AI: RUNNING") exactly when the shutoff
checkbox is unchecked; when it is checked the helper leaves every state field
unchanged. -/
theorem setAIRunning_guarded (s : UIState) :
    (s.checked = false →
        setAIRunning s =
          { s with dotClass := "status-dot running", statusText := "AI: RUNNING" }) ∧
    (s.checked = true → setAIRunning s = s) := by
  cases h : s.checked <;> simp [setAIRunning, h]

/-- Witness for C4 at concrete enabled and disabled states. -/
theorem setAIRunning_guarded_witness :
    setAIRunning ⟨false, "MODE: ANALYSIS", "status-dot idle", "AI: IDLE"⟩ =
      ⟨false, "MODE: ANALYSIS", "status-dot running", "AI: RUNNING"⟩ ∧
    setAIRunning ⟨true, "MODE: ANALYSIS", "status-dot idle", "AI: IDLE"⟩ =
      ⟨true, "MODE: ANALYSIS", "status-dot idle", "AI: IDLE"⟩ :=
  ⟨(setAIRunning_guarded ⟨false, "MODE: ANALYSIS", "status-dot idle", "AI: IDLE"⟩).1 rfl,
   (setAIRunning_guarded ⟨true, "MODE: ANALYSIS", "status-dot idle", "AI: IDLE"⟩).2 rfl⟩

/-- C5: for every selected file whose name ends in ".glb" or ".gltf" and
whose decode succeeds, the resulting scene is exactly the ambient light plus
the newly decoded asset subtree: it counts exactly one ambient light, its
asset subtrees are exactly the new one, and any previously loaded asset still
present must be the new one (all others are removed). -/
theorem load_success_replaces_scene (f : FileHandle) (fs : List FileHandle)
    (scene : List SceneNode) (decode : String → Except String Nat) (assetId : Nat)
    (hext : (jsEndsWith f.name ".glb" || jsEndsWith f.name ".gltf") = true)
    (hdec : decode f.name = Except.ok assetId) :
    fileSelectorChange (f :: fs) scene decode =
      some ⟨[SceneNode.ambientLight, SceneNode.asset assetId], true, [], true⟩ ∧
    [SceneNode.ambientLight, SceneNode.asset assetId].count SceneNode.ambientLight = 1 ∧
    [SceneNode.ambientLight, SceneNode.asset assetId].filter SceneNode.isAsset =
      [SceneNode.asset assetId] ∧
    (∀ n ∈ scene, n.isAsset = true →
      n ∈ [SceneNode.ambientLight, SceneNode.asset assetId] → n = SceneNode.asset assetId) := by
  refine ⟨by simp [fileSelectorChange, hext, hdec], by simp,
    by simp [SceneNode.isAsset], ?_⟩
  intro n _ hAsset hn
  simp only [List.mem_cons, List.not_mem_nil, or_false] at hn
  rcases hn with h | h
  · subst h; simp [SceneNode.isAsset] at hAsset
  · exact h

/-- Witness for C5 at a concrete successful ".glb" load over a non-empty
prior scene. -/
theorem load_success_replaces_scene_witness :
    fileSelectorChange [⟨"model.glb"⟩] [SceneNode.asset 0] (fun _ => Except.ok 7) =
      some ⟨[SceneNode.ambientLight, SceneNode.asset 7], true, [], true⟩ ∧
    [SceneNode.ambientLight, SceneNode.asset 7].count SceneNode.ambientLight = 1 ∧
    [SceneNode.ambientLight, SceneNode.asset 7].filter SceneNode.isAsset =
      [SceneNode.asset 7] ∧
    (∀ n ∈ [SceneNode.asset 0], n.isAsset = true →
      n ∈ [SceneNode.ambientLight, SceneNode.asset 7] → n = SceneNode.asset 7) :=
  load_success_replaces_scene ⟨"model.glb"⟩ [] [SceneNode.asset 0] (fun _ => Except.ok 7) 7
    (by decide) rfl

/-- C6: for every model-file load whose decode fails, the error is reported
via `console.error` ("Load error: ..." reaches the observability sink) and
the scene is exactly the one from before the load; the render loop is not
(re)started by this handler run. -/
theorem load_failure_preserves_scene (f : FileHandle) (fs : List FileHandle)
    (scene : List SceneNode) (decode : String → Except String Nat) (e : String)
    (hext : (jsEndsWith f.name ".glb" || jsEndsWith f.name ".gltf") = true)
    (hdec : decode f.name = Except.error e) :
    fileSelectorChange (f :: fs) scene decode =
      some ⟨scene, true, ["Load error: " ++ e], false⟩ := by
  simp [fileSelectorChange, hext, hdec]

/-- Witness for C6 at a concrete failing ".gltf" load. -/
theorem load_failure_preserves_scene_witness :
    fileSelectorChange [⟨"model.gltf"⟩] [SceneNode.ambientLight, SceneNode.asset 3]
        (fun _ => Except.error "bad header") =
      some ⟨[SceneNode.ambientLight, SceneNode.asset 3], true,
        ["Load error: " ++ "bad header"], false⟩ :=
  load_failure_preserves_scene ⟨"model.gltf"⟩ [] [SceneNode.ambientLight, SceneNode.asset 3]
    (fun _ => Except.error "bad header") "bad header" (by decide) rfl

/-- C7: for every selected file whose name ends in neither ".glb" nor
".gltf", the handler performs no scene mutation and never invokes the
external loader. -/
theorem non_model_file_ignored (f : FileHandle) (fs : List FileHandle)
    (scene : List SceneNode) (decode : String → Except String Nat)
    (hext : (jsEndsWith f.name ".glb" || jsEndsWith f.name ".gltf") = false) :
    fileSelectorChange (f :: fs) scene decode = some ⟨scene, false, [], false⟩ := by
  simp only [fileSelectorChange, hext, Bool.false_eq_true, if_neg]
  simp

/-- Witness for C7 at the concrete file "model.txt". -/
theorem non_model_file_ignored_witness :
    fileSelectorChange [⟨"model.txt"⟩] [SceneNode.ambientLight]
        (fun _ => Except.ok 1) =
      some ⟨[SceneNode.ambientLight], false, [], false⟩ :=
  non_model_file_ignored ⟨"model.txt"⟩ [] [SceneNode.ambientLight]
    (fun _ => Except.ok 1) (by decide)

/-- C8: for every prior state with the shutoff checkbox checked
(`disabled == true`), the actions "Settings", "Graphs / Analysis",
"Captured Images" and "Human TEM Control" still perform their specified
mode/status updates — the interlock does not gate them. -/
theorem ungated_actions_succeed_when_disabled (s : UIState) (_hd : s.checked = true) :
    toolButtonClick "Settings" s =
      ({ s with modeText := "MODE: SETTINGS" },
        [Effect.log "Switched to SETTINGS", Effect.alert "Settings panel coming soon"]) ∧
    toolButtonClick "Graphs / Analysis" s =
      ({ s with
          modeText := "MODE: ANALYSIS",
          dotClass := "status-dot idle",
          statusText := "AI: IDLE" }, [Effect.log "Switched to ANALYSIS"]) ∧
    toolButtonClick "Captured Images" s =
      ({ s with modeText := "MODE: IMAGE REVIEW" }, [Effect.log "Switched to IMAGE REVIEW"]) ∧
    toolButtonClick "Human TEM Control" s =
      (⟨true, "MODE: HUMAN CONTROL", "status-dot error", "AI: DISABLED"⟩,
        [Effect.log "Switched to HUMAN CONTROL"]) := by
  refine ⟨?_, ?_, ?_, ?_⟩ <;> simp [toolButtonClick, setMode, setStatus]

/-- Witness for C8 at a concrete disabled state. -/
theorem ungated_actions_succeed_when_disabled_witness :
    toolButtonClick "Settings" ⟨true, "MODE: HUMAN CONTROL", "status-dot error", "AI: DISABLED"⟩ =
      (⟨true, "MODE: SETTINGS", "status-dot error", "AI: DISABLED"⟩,
        [Effect.log "Switched to SETTINGS", Effect.alert "Settings panel coming soon"]) ∧
    toolButtonClick "Graphs / Analysis"
        ⟨true, "MODE: HUMAN CONTROL", "status-dot error", "AI: DISABLED"⟩ =
      (⟨true, "MODE: ANALYSIS", "status-dot idle", "AI: IDLE"⟩,
        [Effect.log "Switched to ANALYSIS"]) ∧
    toolButtonClick "Captured Images"
        ⟨true, "MODE: HUMAN CONTROL", "status-dot error", "AI: DISABLED"⟩ =
      (⟨true, "MODE: IMAGE REVIEW", "status-dot error", "AI: DISABLED"⟩,
        [Effect.log "Switched to IMAGE REVIEW"]) ∧
    toolButtonClick "Human TEM Control"
        ⟨true, "MODE: HUMAN CONTROL", "status-dot error", "AI: DISABLED"⟩ =
      (⟨true, "MODE: HUMAN CONTROL", "status-dot error", "AI: DISABLED"⟩,
        [Effect.log "Switched to HUMAN CONTROL"]) :=
  ungated_actions_succeed_when_disabled
    ⟨true, "MODE: HUMAN CONTROL", "status-dot error", "AI: DISABLED"⟩ rfl

/-- C9: for every toolbar action label outside the fixed closed set of six,
the click handler leaves the whole UI state unchanged and emits exactly one
logged warning. -/
theorem unknown_action_warns_only (s : UIState) (a : String)
    (h1 : a ≠ "Settings") (h2 : a ≠ "AI Tools") (h3 : a ≠ "Graphs / Analysis")
    (h4 : a ≠ "Captured Images") (h5 : a ≠ "Human TEM Control") (h6 : a ≠ "Automated TEM") :
    toolButtonClick a s = (s, [Effect.warn ("Unknown toolbar action: " ++ a)]) := by
  unfold toolButtonClick
  split <;> simp_all

/-- Witness for C9 at the concrete unknown label "Focus". -/
theorem unknown_action_warns_only_witness :
    toolButtonClick "Focus" ⟨false, "MODE: SETTINGS", "status-dot idle", "AI: IDLE"⟩ =
      (⟨false, "MODE: SETTINGS", "status-dot idle", "AI: IDLE"⟩,
        [Effect.warn ("Unknown toolbar action: " ++ "Focus")]) :=
  unknown_action_warns_only ⟨false, "MODE: SETTINGS", "status-dot idle", "AI: IDLE"⟩ "Focus"
    (by decide) (by decide) (by decide) (by decide) (by decide) (by decide)

/-- C10: the file-selector change handler dereferences the first file before
any extension check: on an empty file list (e.g. a cancelled dialog) it is
undefined (modelled as `none`), and it is total exactly on non-empty file
lists. -/
theorem file_access_unguarded :
    (∀ (scene : List SceneNode) (decode : String → Except String Nat),
        fileSelectorChange [] scene decode = none) ∧
    (∀ (f : FileHandle) (fs : List FileHandle) (scene : List SceneNode)
        (decode : String → Except String Nat),
        (fileSelectorChange (f :: fs) scene decode).isSome = true) := by
  refine ⟨fun scene decode => rfl, fun f fs scene decode => ?_⟩
  unfold fileSelectorChange
  cases hb : jsEndsWith f.name ".glb" || jsEndsWith f.name ".gltf" <;> simp [hb]
  cases decode f.name <;> simp

end MicroscopyUI
